import Mathlib

/-
Verification development for the Korus feedback service.

The definitions below are a shallow embedding of the Python sources:
  app/models.py     (data model)
  app/sheets.py     (sink client with retry)
  app/storage.py    (in-memory stores)
  app/friendwork.py (webhook intake with dedup)
  app/bot.py        (conversation workflow engine)
Machine strings are Lean Strings; Python ints are Lean Ints; timestamps
are abstracted as Nat (capture time); outbound reply texts are abstracted
as an enumeration of reply kinds, one constructor per distinct answer
call in the source, carrying the data interpolated into the text.
-/

namespace Korus

/-! ## Python string primitives used by the handlers -/

/-- ASCII whitespace recognised by Python str.strip (space, tab, newline,
carriage return, vertical tab, form feed); the embedding restricts the
unicode-aware Python behaviour to the ASCII range. -/
def pySpace (c : Char) : Bool :=
  c = ' ' || c = '\t' || c = '\n' || c = '\r' || c = '\x0b' || c = '\x0c'

/-- Embedding of Python str.strip(): drop leading and trailing whitespace. -/
def pyStrip (s : String) : String :=
  String.mk (((s.data.dropWhile pySpace).reverse.dropWhile pySpace).reverse)

/-- Embedding of Python str.lower() on the ASCII range. -/
def pyLower (s : String) : String :=
  String.mk (s.data.map Char.toLower)

/-- Embedding of the Python truthiness fallback (a or b) on strings:
the empty string is falsy. -/
def pyOrS (a b : String) : String :=
  if a = "" then b else a

/-- Digit tail of a Python integer literal: digits with single underscores
allowed only between digits (int() accepts 1_000 but not 1__0, _1 or 1_). -/
def pyIntDigits : Nat → List Char → Option Nat
  | acc, [] => some acc
  | acc, c :: cs =>
    if c.isDigit then pyIntDigits (acc * 10 + (c.toNat - 48)) cs
    else if c = '_' then
      match cs with
      | [] => none
      | d :: ds => if d.isDigit then pyIntDigits (acc * 10 + (d.toNat - 48)) ds else none
    else none

/-- Unsigned part of a Python int literal: at least one leading digit. -/
def pyIntNatOf : List Char → Option Nat
  | [] => none
  | c :: cs => if c.isDigit then pyIntDigits (c.toNat - 48) cs else none

/-- Embedding of Python int(s) on ASCII text: int() strips surrounding
whitespace, allows one optional sign, then a digit run; anything else
raises (modelled as none). -/
def pyToInt (s : String) : Option Int :=
  match (pyStrip s).data with
  | [] => none
  | c :: cs =>
    if c = '+' then (pyIntNatOf cs).map Int.ofNat
    else if c = '-' then (pyIntNatOf cs).map (fun n => -(Int.ofNat n))
    else (pyIntNatOf (c :: cs)).map Int.ofNat

/-! ## Data model (app/models.py) -/

structure User where
  telegram_id : Int
  full_name : String
  title : Option String
  contact : Option String
  permission_level : String
  status : String
deriving DecidableEq

structure VacancyAssignment where
  vacancy_id : String
  vacancy_title : String
  recruiter_name : String
  hiring_manager_ids : List Int
deriving DecidableEq

structure FeedbackRecord where
  vacancy_id : String
  vacancy_title : String
  recruiter_name : String
  hiring_manager_full_name : String
  telegram_user_id : Int
  feedback_comment : String
  overall_rating : Int
  comms_rating : Int
  timeliness_rating : Int
  relevance_rating : Int
  process_quality_rating : Int
  recommendations : String
  submitted_at : Nat
deriving DecidableEq

/-! ## Sink client (app/sheets.py, SheetWebhookClient.append_feedback)

One HTTP attempt either returns a response with a status code or raises a
transport error. append_feedback raises for a status of 400 or more
(resp.raise_for_status) and returns normally below 400; the tenacity
decorator (stop_after_attempt 3) re-runs the body whenever it raises, up
to three attempts in total, then surfaces the failure. The backoff sleeps
do not affect the outcome and are not modelled. -/

inductive AttemptOutcome
  | transportError
  | status (code : Nat)
deriving DecidableEq

/-- What one attempt of the body yields: some code when the body returns
normally (status below 400), none when it raises (transport error, or
raise_for_status on a code of 400 or more). -/
def attemptResult : AttemptOutcome → Option Nat
  | .transportError => none
  | .status c => if 400 ≤ c then none else some c

def attemptRaises (a : AttemptOutcome) : Bool :=
  (attemptResult a).isNone

inductive AppendResult
  | success (code : Nat)
  | failure
deriving DecidableEq

/-- append_feedback under the retry decorator: the environment assigns an
outcome to each attempt number; the result is the first normal return
among attempts 1..3, or failure after the third raise. The second
component is the number of attempts made. -/
def append_feedback (o : Nat → AttemptOutcome) : AppendResult × Nat :=
  match attemptResult (o 1) with
  | some c => (.success c, 1)
  | none =>
    match attemptResult (o 2) with
    | some c => (.success c, 2)
    | none =>
      match attemptResult (o 3) with
      | some c => (.success c, 3)
      | none => (.failure, 3)

/-- A JSON scalar in the sink payload: the row mixes strings and ints. -/
inductive Cell
  | str (v : String)
  | int (v : Int)
deriving DecidableEq

/-- The JSON body posted by append_feedback (app/sheets.py lines 22-50). -/
structure SheetPayload where
  vacancy : String
  vacancy_id : String
  hiring_manager : String
  comment : String
  recruiter : String
  overall : Int
  overall_rating : Int
  comms_rating : Int
  timeliness_rating : Int
  relevance_rating : Int
  process_quality_rating : Int
  recommendations : String
  submitted_at : Nat
  telegram_user_id : Int
  source : String
  row : List Cell
deriving DecidableEq

/-- Construction of the payload from a FeedbackRecord, field for field as
in the source. -/
def append_payload (r : FeedbackRecord) : SheetPayload :=
  { vacancy := pyOrS r.vacancy_title r.vacancy_id
    vacancy_id := r.vacancy_id
    hiring_manager := r.hiring_manager_full_name
    comment := r.feedback_comment
    recruiter := r.recruiter_name
    overall := r.overall_rating
    overall_rating := r.overall_rating
    comms_rating := r.comms_rating
    timeliness_rating := r.timeliness_rating
    relevance_rating := r.relevance_rating
    process_quality_rating := r.process_quality_rating
    recommendations := r.recommendations
    submitted_at := r.submitted_at
    telegram_user_id := r.telegram_user_id
    source := "telegram-bot"
    row := [Cell.str (pyOrS r.vacancy_title r.vacancy_id),
            Cell.str r.hiring_manager_full_name,
            Cell.str (pyOrS r.recommendations r.feedback_comment),
            Cell.str r.recruiter_name,
            Cell.int r.overall_rating,
            Cell.int r.comms_rating,
            Cell.int r.timeliness_rating,
            Cell.int r.relevance_rating,
            Cell.int r.process_quality_rating] }

/-! ## Event intake (app/friendwork.py, friendwork_webhook)

The EventStore (app/storage.py) is a set of seen event ids; the
VacancyStore is a dict keyed by vacancy id, modelled as an association
list with in-place replacement on upsert. The fan-out call
send_feedback_request is recorded in a log; admin notifications are
recorded as their message texts. -/

structure FriendWorkEvent where
  event_id : String
  vacancy_id : String
  vacancy_title : String
  recruiter_name : String
  hiring_manager_ids : List Int
deriving DecidableEq

inductive WebhookResp
  | unauthorized
  | duplicate
  | no_managers
  | ok
deriving DecidableEq

/-- Dict upsert on an association list: replace the entry with the key in
place, or append it at the end. -/
def assocUpsert (k : String) (v : VacancyAssignment) :
    List (String × VacancyAssignment) → List (String × VacancyAssignment)
  | [] => [(k, v)]
  | (k2, v2) :: rest =>
    if k2 = k then (k, v) :: rest else (k2, v2) :: assocUpsert k v rest

structure IntakeState where
  seen : List String
  vacancies : List (String × VacancyAssignment)
  fanout_log : List VacancyAssignment
  admin_notices : List String
deriving DecidableEq

/-- The handler body of POST /friendwork/webhook, run to completion with
no interleaving (app/friendwork.py lines 38-60): secret check, dedup
check, mark, vacancy upsert, then either the empty-managers notice or the
fan-out. -/
def friendwork_webhook (cfg : String) (hdr : Option String)
    (p : FriendWorkEvent) (st : IntakeState) : WebhookResp × IntakeState :=
  if hdr ≠ some cfg then (.unauthorized, st)
  else if p.event_id ∈ st.seen then (.duplicate, st)
  else
    let st1 : IntakeState := { st with seen := p.event_id :: st.seen }
    let v : VacancyAssignment :=
      ⟨p.vacancy_id, p.vacancy_title, p.recruiter_name, p.hiring_manager_ids⟩
    let st2 : IntakeState := { st1 with vacancies := assocUpsert p.vacancy_id v st1.vacancies }
    if p.hiring_manager_ids = [] then
      (.no_managers,
       { st2 with admin_notices :=
           st2.admin_notices ++ ["No hiring managers found for vacancy " ++ p.vacancy_id] })
    else
      (.ok, { st2 with fanout_log := st2.fanout_log ++ [v] })

/-! ### Interleaving model of the webhook handler

The handler awaits between the dedup check (event_store.seen, one lock
acquisition), the mark (event_store.mark, a second lock acquisition) and
the rest of the processing; under the asyncio event loop another request
handler may run at each await point. Each coroutine is modelled as a
program counter plus one atomic step per await-delimited section; the
upsert and fan-out are merged into the final step, which only makes the
model coarser (fewer interleavings) than the source. -/

inductive HPC
  | start
  | checked (wasSeen : Bool)
  | marked
  | done (r : WebhookResp)
deriving DecidableEq

/-- One atomic section of the webhook handler for payload p (secret
assumed correct): the dedup check, the mark, and the processing tail. -/
def hstep (p : FriendWorkEvent) (c : HPC) (st : IntakeState) : HPC × IntakeState :=
  match c with
  | .start => (.checked (decide (p.event_id ∈ st.seen)), st)
  | .checked true => (.done .duplicate, st)
  | .checked false => (.marked, { st with seen := p.event_id :: st.seen })
  | .marked =>
    let v : VacancyAssignment :=
      ⟨p.vacancy_id, p.vacancy_title, p.recruiter_name, p.hiring_manager_ids⟩
    let st2 : IntakeState := { st with vacancies := assocUpsert p.vacancy_id v st.vacancies }
    if p.hiring_manager_ids = [] then
      (.done .no_managers,
       { st2 with admin_notices :=
           st2.admin_notices ++ ["No hiring managers found for vacancy " ++ p.vacancy_id] })
    else
      (.done .ok, { st2 with fanout_log := st2.fanout_log ++ [v] })
  | .done r => (.done r, st)

/-- Run two concurrent deliveries (payloads p and q) under a schedule:
true steps the first coroutine, false the second. -/
def runSched (p q : FriendWorkEvent) :
    List Bool → HPC × HPC × IntakeState → HPC × HPC × IntakeState
  | [], cfgn => cfgn
  | b :: rest, (ca, cb, st) =>
    if b then
      let r := hstep p ca st
      runSched p q rest (r.1, cb, r.2)
    else
      let r := hstep q cb st
      runSched p q rest (ca, r.1, r.2)

/-! ## Conversation workflow engine (app/bot.py)

The feedback flow FSM. Session data is the FSMContext data dict restricted
to the keys the feedback handlers read and write; a missing key is none.
Outbound texts are abstracted as Reply constructors, one per answer call,
carrying the interpolated data. -/

inductive FeedbackState
  | overall_rating
  | recruiter
  | comms_rating
  | timeliness_rating
  | relevance_rating
  | process_quality_rating
  | recommendations
  | confirm
deriving DecidableEq

structure SessionData where
  vacancy_id : Option String
  vacancy_title : Option String
  recruiter_name : Option String
  hiring_manager_full_name : Option String
  overall_rating : Option Int
  comms_rating : Option Int
  timeliness_rating : Option Int
  relevance_rating : Option Int
  process_quality_rating : Option Int
  recommendations : Option String
  feedback_comment : Option String
deriving DecidableEq

/-- The session dict with no keys set. -/
def emptySession : SessionData :=
  ⟨none, none, none, none, none, none, none, none, none, none, none⟩

/-- An inbound Telegram message as the feedback handlers see it: a voice
message has text none and carries the transcription outcome the speech
collaborator would produce for it (none for a failed or unavailable
transcription); otherMsg is a message with neither text nor voice. -/
inductive Inbound
  | textMsg (s : String)
  | voiceMsg (tr : Option String)
  | otherMsg
deriving DecidableEq

/-- message.text of an inbound update. -/
def inbText : Inbound → Option String
  | .textMsg s => some s
  | _ => none

/-- Outbound reply kinds, one constructor per distinct message.answer call
in the feedback handlers, carrying the data interpolated into the text. -/
inductive Reply
  | ratingRangeReprompt (lo hi : Int)
  | recruiterPrompt (dflt : Option String)
  | commsPrompt
  | timelinessPrompt
  | relevancePrompt
  | processQualityPrompt
  | recommendationsPrompt
  | summaryPrompt (d : SessionData)
  | confirmReprompt
  | canceledAck
  | savedAck
  | sheetsFailNotice
  | transcribingNote
  | transcriptEcho (t : String)
  | speechNotConfigured
  | transcriptionFailedNote
  | sendTextOrVoiceNote
deriving DecidableEq

/-- The sender of an inbound message: message.from_user. -/
structure Message where
  text : Option String
  from_user_id : Int
  from_user_full_name : String
deriving DecidableEq

/-- _validate_rating (app/bot.py lines 171-179): int(message.text.strip())
inside a try that catches everything (a voice message has text None and
raises), then the inclusive range check; none means the handler answered
with the range re-prompt and returned. -/
def validate_rating (text : Option String) (min_value max_value : Int) : Option Int :=
  match text with
  | none => none
  | some t =>
    match pyToInt (pyStrip t) with
    | none => none
    | some v => if min_value ≤ v ∧ v ≤ max_value then some v else none

/-- Session seeding shared by handle_start_feedback and manual_feedback:
state.update_data merges the four vacancy keys into whatever data the
context already holds. -/
def seedSession (prior : SessionData) (v : VacancyAssignment) (full_name : String) : SessionData :=
  { prior with
    vacancy_id := some v.vacancy_id
    vacancy_title := some v.vacancy_title
    recruiter_name := some v.recruiter_name
    hiring_manager_full_name := some full_name }

/-- receive_overall (app/bot.py lines 181-192). -/
def receive_overall (d : SessionData) (i : Inbound) :
    (FeedbackState × SessionData) × List Reply :=
  match validate_rating (inbText i) 1 5 with
  | none => ((.overall_rating, d), [.ratingRangeReprompt 1 5])
  | some v =>
    let d2 := { d with overall_rating := some v }
    ((.recruiter, d2), [.recruiterPrompt d2.recruiter_name])

/-- receive_recruiter (app/bot.py lines 194-202). A non-text update makes
message.text.strip() raise out of the handler: the dispatcher swallows
the error, so neither the state nor the data changes and no reply is
sent. -/
def receive_recruiter (d : SessionData) (i : Inbound) :
    (FeedbackState × SessionData) × List Reply :=
  match i with
  | .textMsg t =>
    let name0 := pyStrip t
    let name := if pyLower name0 = "default" then d.recruiter_name.getD "Unknown" else name0
    ((.comms_rating, { d with recruiter_name := some name }), [.commsPrompt])
  | _ => ((.recruiter, d), [])

/-- receive_comms (app/bot.py lines 204-211). -/
def receive_comms (d : SessionData) (i : Inbound) :
    (FeedbackState × SessionData) × List Reply :=
  match validate_rating (inbText i) 1 5 with
  | none => ((.comms_rating, d), [.ratingRangeReprompt 1 5])
  | some v => ((.timeliness_rating, { d with comms_rating := some v }), [.timelinessPrompt])

/-- receive_time (app/bot.py lines 213-220). -/
def receive_time (d : SessionData) (i : Inbound) :
    (FeedbackState × SessionData) × List Reply :=
  match validate_rating (inbText i) 1 5 with
  | none => ((.timeliness_rating, d), [.ratingRangeReprompt 1 5])
  | some v => ((.relevance_rating, { d with timeliness_rating := some v }), [.relevancePrompt])

/-- receive_relevance (app/bot.py lines 222-229). -/
def receive_relevance (d : SessionData) (i : Inbound) :
    (FeedbackState × SessionData) × List Reply :=
  match validate_rating (inbText i) 1 5 with
  | none => ((.relevance_rating, d), [.ratingRangeReprompt 1 5])
  | some v =>
    ((.process_quality_rating, { d with relevance_rating := some v }), [.processQualityPrompt])

/-- receive_process_quality (app/bot.py lines 231-238). -/
def receive_process_quality (d : SessionData) (i : Inbound) :
    (FeedbackState × SessionData) × List Reply :=
  match validate_rating (inbText i) 1 5 with
  | none => ((.process_quality_rating, d), [.ratingRangeReprompt 1 5])
  | some v =>
    ((.recommendations, { d with process_quality_rating := some v }), [.recommendationsPrompt])

/-- Tail of receive_recommendations once a non-empty text is in hand:
store it under recommendations and feedback_comment, advance to confirm,
send the summary. -/
def finishRecs (d : SessionData) (t : String) (pre : List Reply) :
    (FeedbackState × SessionData) × List Reply :=
  let d2 := { d with recommendations := some t, feedback_comment := some t }
  ((.confirm, d2), pre ++ [.summaryPrompt d2])

/-- receive_recommendations (app/bot.py lines 240-277); sp says whether
the speech collaborator is configured. A voice message is transcribed
(its Inbound carries the transcription outcome); an empty or failed
transcription, empty stripped text, or a message with neither text nor
voice re-prompts without advancing. -/
def receive_recommendations (sp : Bool) (d : SessionData) (i : Inbound) :
    (FeedbackState × SessionData) × List Reply :=
  match i with
  | .voiceMsg tr =>
    if sp = false then ((.recommendations, d), [.speechNotConfigured])
    else
      match tr with
      | none => ((.recommendations, d), [.transcribingNote, .transcriptionFailedNote])
      | some t =>
        if t = "" then ((.recommendations, d), [.transcribingNote, .transcriptionFailedNote])
        else finishRecs d t [.transcribingNote, .transcriptEcho t]
  | .textMsg t =>
    let t2 := pyStrip t
    if t2 = "" then ((.recommendations, d), [.sendTextOrVoiceNote])
    else finishRecs d t2 []
  | .otherMsg => ((.recommendations, d), [.sendTextOrVoiceNote])

/-- FeedbackRecord construction at the confirm step (app/bot.py lines
291-305): every field read from the accumulator with the defaults of
data.get; now is the captured utcnow. -/
def mkRecord (d : SessionData) (msg : Message) (now : Nat) : FeedbackRecord :=
  { vacancy_id := d.vacancy_id.getD ""
    vacancy_title := d.vacancy_title.getD ""
    recruiter_name := d.recruiter_name.getD ""
    hiring_manager_full_name :=
      d.hiring_manager_full_name.getD (pyOrS msg.from_user_full_name "")
    telegram_user_id := msg.from_user_id
    feedback_comment := d.feedback_comment.getD ""
    overall_rating := d.overall_rating.getD 0
    comms_rating := d.comms_rating.getD 0
    timeliness_rating := d.timeliness_rating.getD 0
    relevance_rating := d.relevance_rating.getD 0
    process_quality_rating := d.process_quality_rating.getD 0
    recommendations := d.recommendations.getD ""
    submitted_at := now }

/-- The write environment of the confirm handler: ctx.sheets is either
absent, or its append_feedback succeeds, or it raises after its retries. -/
inductive SinkEnv
  | notConfigured
  | appendOk
  | appendFails
deriving DecidableEq

/-- Result of one run of the confirm handler: the session (none when
state.clear ran), the fallback buffer, the list of records delivered to
the sink, and the replies sent. -/
structure ConfirmResult where
  session : Option (FeedbackState × SessionData)
  buffer : List FeedbackRecord
  sink : List FeedbackRecord
  replies : List Reply
deriving DecidableEq

/-- confirm (app/bot.py lines 279-317), run with the session at the
confirm state holding data d, the fallback buffer and delivered-sink
contents as given. -/
def confirm_handler (env : SinkEnv) (msg : Message) (d : SessionData)
    (buffer sink : List FeedbackRecord) (now : Nat) : ConfirmResult :=
  let decision := pyLower (pyStrip (msg.text.getD ""))
  if ¬ (decision = "yes" ∨ decision = "no") then
    ⟨some (.confirm, d), buffer, sink, [.confirmReprompt]⟩
  else if decision = "no" then
    ⟨none, buffer, sink, [.canceledAck]⟩
  else
    let record := mkRecord d msg now
    match env with
    | .appendOk => ⟨none, buffer, sink ++ [record], [.savedAck]⟩
    | .appendFails => ⟨none, buffer ++ [record], sink, [.sheetsFailNotice, .savedAck]⟩
    | .notConfigured => ⟨none, buffer ++ [record], sink, [.savedAck]⟩

/-- Sessions of the feedback flow reachable by entering at overall_rating
(seeding over arbitrary prior context data, as both entry points do) and
then running the registered handlers; the confirm constructor covers the
re-prompt branch, the only one that leaves a session behind. -/
inductive Reaches (sp : Bool) : FeedbackState → SessionData → Prop
  | seed (prior : SessionData) (v : VacancyAssignment) (full_name : String) :
      Reaches sp .overall_rating (seedSession prior v full_name)
  | stepOverall (d : SessionData) (i : Inbound) (st2 : FeedbackState)
      (d2 : SessionData) (rs : List Reply) :
      Reaches sp .overall_rating d → receive_overall d i = ((st2, d2), rs) →
      Reaches sp st2 d2
  | stepRecruiter (d : SessionData) (i : Inbound) (st2 : FeedbackState)
      (d2 : SessionData) (rs : List Reply) :
      Reaches sp .recruiter d → receive_recruiter d i = ((st2, d2), rs) →
      Reaches sp st2 d2
  | stepComms (d : SessionData) (i : Inbound) (st2 : FeedbackState)
      (d2 : SessionData) (rs : List Reply) :
      Reaches sp .comms_rating d → receive_comms d i = ((st2, d2), rs) →
      Reaches sp st2 d2
  | stepTime (d : SessionData) (i : Inbound) (st2 : FeedbackState)
      (d2 : SessionData) (rs : List Reply) :
      Reaches sp .timeliness_rating d → receive_time d i = ((st2, d2), rs) →
      Reaches sp st2 d2
  | stepRelevance (d : SessionData) (i : Inbound) (st2 : FeedbackState)
      (d2 : SessionData) (rs : List Reply) :
      Reaches sp .relevance_rating d → receive_relevance d i = ((st2, d2), rs) →
      Reaches sp st2 d2
  | stepProcess (d : SessionData) (i : Inbound) (st2 : FeedbackState)
      (d2 : SessionData) (rs : List Reply) :
      Reaches sp .process_quality_rating d → receive_process_quality d i = ((st2, d2), rs) →
      Reaches sp st2 d2
  | stepRecs (d : SessionData) (i : Inbound) (st2 : FeedbackState)
      (d2 : SessionData) (rs : List Reply) :
      Reaches sp .recommendations d → receive_recommendations sp d i = ((st2, d2), rs) →
      Reaches sp st2 d2
  | stepConfirm (d : SessionData) (env : SinkEnv) (msg : Message)
      (buffer sink : List FeedbackRecord) (now : Nat) (st2 : FeedbackState)
      (d2 : SessionData) :
      Reaches sp .confirm d →
      (confirm_handler env msg d buffer sink now).session = some (st2, d2) →
      Reaches sp st2 d2

/-- Position of a state in the linear feedback flow. -/
def stIdx : FeedbackState → Nat
  | .overall_rating => 0
  | .recruiter => 1
  | .comms_rating => 2
  | .timeliness_rating => 3
  | .relevance_rating => 4
  | .process_quality_rating => 5
  | .recommendations => 6
  | .confirm => 7

/-- A stored rating field holding a validated value. -/
def ratingOk (o : Option Int) : Prop :=
  ∃ v, o = some v ∧ 1 ≤ v ∧ v ≤ 5

/-- The invariant carried along the linear flow: every rating collected by
a state already passed holds a validated value. -/
def SessInv (st : FeedbackState) (d : SessionData) : Prop :=
  (1 ≤ stIdx st → ratingOk d.overall_rating) ∧
  (3 ≤ stIdx st → ratingOk d.comms_rating) ∧
  (4 ≤ stIdx st → ratingOk d.timeliness_rating) ∧
  (5 ≤ stIdx st → ratingOk d.relevance_rating) ∧
  (6 ≤ stIdx st → ratingOk d.process_quality_rating)

/-! ## Fan-out (app/bot.py, send_feedback_request lines 63-76) -/

/-- Which manager ids were attempted and which deliveries went through:
the loop skips a manager only when the identity store holds the user with
a status other than active; a send failure is logged and the loop
continues. -/
structure FanoutResult where
  attempted : List Int
  delivered : List Int
deriving DecidableEq

/-- send_feedback_request over the manager-id list: store is
user_store.get, deliver says whether bot.send_message succeeds for an
id. -/
def send_feedback_request (store : Int → Option User) (deliver : Int → Bool) :
    List Int → FanoutResult
  | [] => ⟨[], []⟩
  | m :: rest =>
    let skip : Bool :=
      match store m with
      | some u => u.status ≠ "active"
      | none => false
    if skip then send_feedback_request store deliver rest
    else
      let r := send_feedback_request store deliver rest
      ⟨m :: r.attempted, if deliver m then m :: r.delivered else r.delivered⟩

/-- The eligibility condition stated by the claim: a reviewer is prompted
when unregistered or registered with status active. -/
def eligibleReviewer (store : Int → Option User) (m : Int) : Bool :=
  match store m with
  | none => true
  | some u => u.status = "active"

/-! ## Concrete demonstration values used by the witnesses -/

def demoVac : VacancyAssignment := ⟨"v1", "Backend Engineer", "Jane", [42]⟩

def demoMsg : Message := ⟨some "yes", 42, "Alex Doe"⟩

def emptyIntake : IntakeState := ⟨[], [], [], []⟩

def raceEvent : FriendWorkEvent := ⟨"e1", "v1", "Backend Engineer", "Jane", [42]⟩

/-- check A, check B, mark A, process A, mark B, process B. -/
def raceSchedule : List Bool := [true, false, true, true, false, false]

def raceOutcome : HPC × HPC × IntakeState :=
  runSched raceEvent raceEvent raceSchedule (HPC.start, HPC.start, emptyIntake)

/-- The accumulator of the demonstration session after the inputs 5,
default, 4, 4, 5, 5, and the recommendation text. -/
def demoConfirmData : SessionData :=
  { vacancy_id := some "v1"
    vacancy_title := some "Backend Engineer"
    recruiter_name := some "Jane"
    hiring_manager_full_name := some "Alex Doe"
    overall_rating := some 5
    comms_rating := some 4
    timeliness_rating := some 4
    relevance_rating := some 5
    process_quality_rating := some 5
    recommendations := some "Great process"
    feedback_comment := some "Great process" }

/-! ## Helper lemmas -/

/-- A value accepted by _validate_rating lies in the inclusive range. -/
theorem validate_rating_bounds (t : Option String) (lo hi v : Int)
    (h : validate_rating t lo hi = some v) : lo ≤ v ∧ v ≤ hi := by
  unfold validate_rating at h
  split at h
  · exact Option.noConfusion h
  · split at h
    · exact Option.noConfusion h
    · split at h
      · next hb => injection h with h2; omega
      · exact Option.noConfusion h

/-- A body attempt that returns normally carries a status below 400. -/
theorem attemptResult_lt (a : AttemptOutcome) (c : Nat)
    (h : attemptResult a = some c) : c < 400 := by
  cases a with
  | transportError => exact Option.noConfusion h
  | status k =>
    simp only [attemptResult] at h
    by_cases hk : 400 ≤ k
    · rw [if_pos hk] at h; exact Option.noConfusion h
    · rw [if_neg hk] at h; injection h with h2; omega

/-- After any webhook call with the correct secret, the event id of the
payload is marked seen in the resulting state. -/
theorem webhook_marks_seen (cfg : String) (p : FriendWorkEvent) (st : IntakeState) :
    p.event_id ∈ ((friendwork_webhook cfg (some cfg) p st).2).seen := by
  unfold friendwork_webhook
  by_cases hs : p.event_id ∈ st.seen
  · simp [hs]
  · by_cases hm : p.hiring_manager_ids = [] <;> simp [hs, hm]

/-- Every session reachable through the linear feedback flow satisfies the
rating invariant. -/
theorem reaches_inv (sp : Bool) (st : FeedbackState) (d : SessionData)
    (h : Reaches sp st d) : SessInv st d := by
  induction h with
  | seed prior v full_name =>
    unfold SessInv stIdx
    exact ⟨fun hc => absurd hc (by decide), fun hc => absurd hc (by decide),
           fun hc => absurd hc (by decide), fun hc => absurd hc (by decide),
           fun hc => absurd hc (by decide)⟩
  | stepOverall d i st2 d2 rs hr heq ih =>
    cases hv : validate_rating (inbText i) 1 5 with
    | none =>
      simp only [receive_overall, hv, Prod.mk.injEq] at heq
      obtain ⟨⟨h1, h2⟩, h3⟩ := heq
      subst h1; subst h2; exact ih
    | some v =>
      simp only [receive_overall, hv, Prod.mk.injEq] at heq
      obtain ⟨⟨h1, h2⟩, h3⟩ := heq
      subst h1; subst h2
      have hb := validate_rating_bounds (inbText i) 1 5 v hv
      unfold SessInv stIdx ratingOk
      exact ⟨fun _ => ⟨v, rfl, hb.1, hb.2⟩, fun hc => absurd hc (by decide),
             fun hc => absurd hc (by decide), fun hc => absurd hc (by decide),
             fun hc => absurd hc (by decide)⟩
  | stepRecruiter d i st2 d2 rs hr heq ih =>
    cases i with
    | textMsg t =>
      simp only [receive_recruiter, Prod.mk.injEq] at heq
      obtain ⟨⟨h1, h2⟩, h3⟩ := heq
      subst h1; subst h2
      unfold SessInv stIdx at ih ⊢
      obtain ⟨io, ic, it, ir, ip⟩ := ih
      exact ⟨fun _ => io (by decide), fun hc => absurd hc (by decide),
             fun hc => absurd hc (by decide), fun hc => absurd hc (by decide),
             fun hc => absurd hc (by decide)⟩
    | voiceMsg tr =>
      simp only [receive_recruiter, Prod.mk.injEq] at heq
      obtain ⟨⟨h1, h2⟩, h3⟩ := heq
      subst h1; subst h2; exact ih
    | otherMsg =>
      simp only [receive_recruiter, Prod.mk.injEq] at heq
      obtain ⟨⟨h1, h2⟩, h3⟩ := heq
      subst h1; subst h2; exact ih
  | stepComms d i st2 d2 rs hr heq ih =>
    cases hv : validate_rating (inbText i) 1 5 with
    | none =>
      simp only [receive_comms, hv, Prod.mk.injEq] at heq
      obtain ⟨⟨h1, h2⟩, h3⟩ := heq
      subst h1; subst h2; exact ih
    | some v =>
      simp only [receive_comms, hv, Prod.mk.injEq] at heq
      obtain ⟨⟨h1, h2⟩, h3⟩ := heq
      subst h1; subst h2
      have hb := validate_rating_bounds (inbText i) 1 5 v hv
      unfold SessInv stIdx ratingOk at ih ⊢
      obtain ⟨io, ic, it, ir, ip⟩ := ih
      exact ⟨fun _ => io (by decide), fun _ => ⟨v, rfl, hb.1, hb.2⟩,
             fun hc => absurd hc (by decide), fun hc => absurd hc (by decide),
             fun hc => absurd hc (by decide)⟩
  | stepTime d i st2 d2 rs hr heq ih =>
    cases hv : validate_rating (inbText i) 1 5 with
    | none =>
      simp only [receive_time, hv, Prod.mk.injEq] at heq
      obtain ⟨⟨h1, h2⟩, h3⟩ := heq
      subst h1; subst h2; exact ih
    | some v =>
      simp only [receive_time, hv, Prod.mk.injEq] at heq
      obtain ⟨⟨h1, h2⟩, h3⟩ := heq
      subst h1; subst h2
      have hb := validate_rating_bounds (inbText i) 1 5 v hv
      unfold SessInv stIdx ratingOk at ih ⊢
      obtain ⟨io, ic, it, ir, ip⟩ := ih
      exact ⟨fun _ => io (by decide), fun _ => ic (by decide),
             fun _ => ⟨v, rfl, hb.1, hb.2⟩, fun hc => absurd hc (by decide),
             fun hc => absurd hc (by decide)⟩
  | stepRelevance d i st2 d2 rs hr heq ih =>
    cases hv : validate_rating (inbText i) 1 5 with
    | none =>
      simp only [receive_relevance, hv, Prod.mk.injEq] at heq
      obtain ⟨⟨h1, h2⟩, h3⟩ := heq
      subst h1; subst h2; exact ih
    | some v =>
      simp only [receive_relevance, hv, Prod.mk.injEq] at heq
      obtain ⟨⟨h1, h2⟩, h3⟩ := heq
      subst h1; subst h2
      have hb := validate_rating_bounds (inbText i) 1 5 v hv
      unfold SessInv stIdx ratingOk at ih ⊢
      obtain ⟨io, ic, it, ir, ip⟩ := ih
      exact ⟨fun _ => io (by decide), fun _ => ic (by decide),
             fun _ => it (by decide), fun _ => ⟨v, rfl, hb.1, hb.2⟩,
             fun hc => absurd hc (by decide)⟩
  | stepProcess d i st2 d2 rs hr heq ih =>
    cases hv : validate_rating (inbText i) 1 5 with
    | none =>
      simp only [receive_process_quality, hv, Prod.mk.injEq] at heq
      obtain ⟨⟨h1, h2⟩, h3⟩ := heq
      subst h1; subst h2; exact ih
    | some v =>
      simp only [receive_process_quality, hv, Prod.mk.injEq] at heq
      obtain ⟨⟨h1, h2⟩, h3⟩ := heq
      subst h1; subst h2
      have hb := validate_rating_bounds (inbText i) 1 5 v hv
      unfold SessInv stIdx ratingOk at ih ⊢
      obtain ⟨io, ic, it, ir, ip⟩ := ih
      exact ⟨fun _ => io (by decide), fun _ => ic (by decide),
             fun _ => it (by decide), fun _ => ir (by decide),
             fun _ => ⟨v, rfl, hb.1, hb.2⟩⟩
  | stepRecs d i st2 d2 rs hr heq ih =>
    have hkeep : ∀ t2 pre, finishRecs d t2 pre = ((st2, d2), rs) → SessInv st2 d2 := by
      intro t2 pre hfin
      unfold finishRecs at hfin
      simp only [Prod.mk.injEq] at hfin
      obtain ⟨⟨h1, h2⟩, h3⟩ := hfin
      subst h1; subst h2
      unfold SessInv stIdx at ih ⊢
      obtain ⟨io, ic, it, ir, ip⟩ := ih
      exact ⟨fun _ => io (by decide), fun _ => ic (by decide),
             fun _ => it (by decide), fun _ => ir (by decide),
             fun _ => ip (by decide)⟩
    cases i with
    | textMsg t =>
      simp only [receive_recommendations] at heq
      by_cases ht : pyStrip t = ""
      · rw [if_pos ht] at heq
        simp only [Prod.mk.injEq] at heq
        obtain ⟨⟨h1, h2⟩, h3⟩ := heq
        subst h1; subst h2; exact ih
      · rw [if_neg ht] at heq
        exact hkeep (pyStrip t) [] heq
    | voiceMsg tr =>
      simp only [receive_recommendations] at heq
      cases sp with
      | false =>
        rw [if_pos rfl] at heq
        simp only [Prod.mk.injEq] at heq
        obtain ⟨⟨h1, h2⟩, h3⟩ := heq
        subst h1; subst h2; exact ih
      | true =>
        rw [if_neg (by simp)] at heq
        cases tr with
        | none =>
          simp only [Prod.mk.injEq] at heq
          obtain ⟨⟨h1, h2⟩, h3⟩ := heq
          subst h1; subst h2; exact ih
        | some t =>
          simp only [] at heq
          by_cases ht : t = ""
          · rw [if_pos ht] at heq
            simp only [Prod.mk.injEq] at heq
            obtain ⟨⟨h1, h2⟩, h3⟩ := heq
            subst h1; subst h2; exact ih
          · rw [if_neg ht] at heq
            exact hkeep t [.transcribingNote, .transcriptEcho t] heq
    | otherMsg =>
      simp only [receive_recommendations, Prod.mk.injEq] at heq
      obtain ⟨⟨h1, h2⟩, h3⟩ := heq
      subst h1; subst h2; exact ih
  | stepConfirm d env msg buffer sink now st2 d2 hr hs ih =>
    simp only [confirm_handler] at hs
    by_cases hc : pyLower (pyStrip (msg.text.getD "")) = "yes" ∨
        pyLower (pyStrip (msg.text.getD "")) = "no"
    · rw [if_neg (not_not_intro hc)] at hs
      by_cases hno : pyLower (pyStrip (msg.text.getD "")) = "no"
      · rw [if_pos hno] at hs
        simp at hs
      · rw [if_neg hno] at hs
        cases env <;> simp at hs
    · rw [if_pos hc] at hs
      simp only [Option.some.injEq, Prod.mk.injEq] at hs
      obtain ⟨h1, h2⟩ := hs
      subst h1; subst h2; exact ih

/-! ## Claims -/

/-- Claim C1: when a completed feedback flow is confirmed with yes, the
record built from the accumulator goes to exactly one destination: the
sink when it is configured and its append succeeds, otherwise the
fallback buffer exactly once with the exact submitted values; and the
session is cleared unconditionally regardless of the write outcome. -/
theorem claim_C1_write_path (env : SinkEnv) (msg : Message) (d : SessionData)
    (buffer sink : List FeedbackRecord) (now : Nat)
    (hyes : pyLower (pyStrip (msg.text.getD "")) = "yes") :
    (confirm_handler env msg d buffer sink now).session = none ∧
    (confirm_handler env msg d buffer sink now).sink =
      (if env = SinkEnv.appendOk then sink ++ [mkRecord d msg now] else sink) ∧
    (confirm_handler env msg d buffer sink now).buffer =
      (if env = SinkEnv.appendOk then buffer else buffer ++ [mkRecord d msg now]) := by
  cases env <;> simp [confirm_handler, hyes]

/-- Witness for C1: a yes answer with a failing sink clears the session,
delivers nothing to the sink, and buffers the record exactly once. -/
theorem claim_C1_witness :
    (confirm_handler SinkEnv.appendFails demoMsg demoConfirmData [] [] 0).session = none ∧
    (confirm_handler SinkEnv.appendFails demoMsg demoConfirmData [] [] 0).sink = [] ∧
    (confirm_handler SinkEnv.appendFails demoMsg demoConfirmData [] [] 0).buffer =
      [mkRecord demoConfirmData demoMsg 0] := by
  have h := claim_C1_write_path SinkEnv.appendFails demoMsg demoConfirmData [] [] 0 (by decide)
  simpa using h

/-- Claim C2: a second intake call carrying the same event id with the
correct shared secret reports duplicate and changes nothing: no second
vacancy upsert, no second fan-out, no state change at all. -/
theorem claim_C2_second_delivery_duplicate (cfg : String) (p q : FriendWorkEvent)
    (st : IntakeState) (hid : q.event_id = p.event_id) :
    friendwork_webhook cfg (some cfg) q ((friendwork_webhook cfg (some cfg) p st).2) =
      (WebhookResp.duplicate, (friendwork_webhook cfg (some cfg) p st).2) := by
  set st1 := (friendwork_webhook cfg (some cfg) p st).2 with hdef
  have hseen : q.event_id ∈ st1.seen := by
    rw [hdef, hid]; exact webhook_marks_seen cfg p st
  simp [friendwork_webhook, hseen]

/-- Witness for C2 at the example payload of the spec. -/
theorem claim_C2_witness :
    friendwork_webhook "shh" (some "shh") raceEvent
        ((friendwork_webhook "shh" (some "shh") raceEvent emptyIntake).2) =
      (WebhookResp.duplicate, (friendwork_webhook "shh" (some "shh") raceEvent emptyIntake).2) :=
  claim_C2_second_delivery_duplicate "shh" raceEvent raceEvent emptyIntake rfl

/-- Claim C3: at every rating state, text that does not parse as an
integer in [1,5] (Python int semantics) leaves state and accumulator
unchanged and emits exactly the range re-prompt; text that parses as an
integer in [1,5] stores the value under the rating field of the state and
advances to the next state with exactly one prompt. The last conjunct
ties the accepted set of _validate_rating to exactly that parse. -/
theorem claim_C3_rating_step (d : SessionData) (t : String) :
    (validate_rating (some t) 1 5 = none →
      receive_overall d (Inbound.textMsg t) =
        ((FeedbackState.overall_rating, d), [Reply.ratingRangeReprompt 1 5]) ∧
      receive_comms d (Inbound.textMsg t) =
        ((FeedbackState.comms_rating, d), [Reply.ratingRangeReprompt 1 5]) ∧
      receive_time d (Inbound.textMsg t) =
        ((FeedbackState.timeliness_rating, d), [Reply.ratingRangeReprompt 1 5]) ∧
      receive_relevance d (Inbound.textMsg t) =
        ((FeedbackState.relevance_rating, d), [Reply.ratingRangeReprompt 1 5]) ∧
      receive_process_quality d (Inbound.textMsg t) =
        ((FeedbackState.process_quality_rating, d), [Reply.ratingRangeReprompt 1 5])) ∧
    (∀ v : Int, validate_rating (some t) 1 5 = some v →
      (1 ≤ v ∧ v ≤ 5) ∧
      receive_overall d (Inbound.textMsg t) =
        ((FeedbackState.recruiter, { d with overall_rating := some v }),
         [Reply.recruiterPrompt d.recruiter_name]) ∧
      receive_comms d (Inbound.textMsg t) =
        ((FeedbackState.timeliness_rating, { d with comms_rating := some v }),
         [Reply.timelinessPrompt]) ∧
      receive_time d (Inbound.textMsg t) =
        ((FeedbackState.relevance_rating, { d with timeliness_rating := some v }),
         [Reply.relevancePrompt]) ∧
      receive_relevance d (Inbound.textMsg t) =
        ((FeedbackState.process_quality_rating, { d with relevance_rating := some v }),
         [Reply.processQualityPrompt]) ∧
      receive_process_quality d (Inbound.textMsg t) =
        ((FeedbackState.recommendations, { d with process_quality_rating := some v }),
         [Reply.recommendationsPrompt])) ∧
    (∀ v : Int, validate_rating (some t) 1 5 = some v ↔
      (pyToInt (pyStrip t) = some v ∧ 1 ≤ v ∧ v ≤ 5)) := by
  refine ⟨?_, ?_, ?_⟩
  · intro h
    exact ⟨by simp [receive_overall, inbText, h], by simp [receive_comms, inbText, h],
           by simp [receive_time, inbText, h], by simp [receive_relevance, inbText, h],
           by simp [receive_process_quality, inbText, h]⟩
  · intro v h
    have hb := validate_rating_bounds (some t) 1 5 v h
    exact ⟨hb, by simp [receive_overall, inbText, h], by simp [receive_comms, inbText, h],
           by simp [receive_time, inbText, h], by simp [receive_relevance, inbText, h],
           by simp [receive_process_quality, inbText, h]⟩
  · intro v
    simp only [validate_rating]
    cases hp : pyToInt (pyStrip t) with
    | none => simp [hp]
    | some w =>
      simp only [hp, Option.some.injEq]
      by_cases hw : 1 ≤ w ∧ w ≤ 5
      · rw [if_pos hw]
        constructor
        · intro he; injection he with he2; subst he2; exact ⟨rfl, hw⟩
        · intro he; rw [he.1]
      · rw [if_neg hw]
        constructor
        · intro he; exact Option.noConfusion he
        · intro he
          obtain ⟨heq, hb⟩ := he
          subst heq
          exact absurd hb hw

/-- Witness for C3: a rejected and an accepted rating input. -/
theorem claim_C3_witness :
    receive_overall emptySession (Inbound.textMsg "abc") =
      ((FeedbackState.overall_rating, emptySession), [Reply.ratingRangeReprompt 1 5]) ∧
    receive_comms emptySession (Inbound.textMsg " 4 ") =
      ((FeedbackState.timeliness_rating, { emptySession with comms_rating := some 4 }),
       [Reply.timelinessPrompt]) := by
  refine ⟨((claim_C3_rating_step emptySession "abc").1 (by decide)).1, ?_⟩
  exact ((claim_C3_rating_step emptySession " 4 ").2.1 4 (by decide)).2.2.1

/-- Claim C4: at the confirm state any answer other than yes or no leaves
the session at confirm with the data unchanged, touches neither buffer
nor sink, and emits exactly one re-prompt; a no answer clears the
session, acknowledges the cancellation, and constructs no record. -/
theorem claim_C4_confirm_gate (env : SinkEnv) (msg : Message) (d : SessionData)
    (buffer sink : List FeedbackRecord) (now : Nat) :
    (¬ (pyLower (pyStrip (msg.text.getD "")) = "yes" ∨
        pyLower (pyStrip (msg.text.getD "")) = "no") →
      confirm_handler env msg d buffer sink now =
        ⟨some (FeedbackState.confirm, d), buffer, sink, [Reply.confirmReprompt]⟩) ∧
    (pyLower (pyStrip (msg.text.getD "")) = "no" →
      confirm_handler env msg d buffer sink now =
        ⟨none, buffer, sink, [Reply.canceledAck]⟩) := by
  constructor
  · intro h; simp [confirm_handler, h]
  · intro h; simp [confirm_handler, h]

/-- Witness for C4: the answer maybe re-prompts; a shouted padded NO
cancels with nothing constructed. -/
theorem claim_C4_witness :
    confirm_handler SinkEnv.appendOk ⟨some "maybe", 42, "Alex Doe"⟩ demoConfirmData [] [] 0 =
      ⟨some (FeedbackState.confirm, demoConfirmData), [], [], [Reply.confirmReprompt]⟩ ∧
    confirm_handler SinkEnv.appendOk ⟨some " NO ", 42, "Alex Doe"⟩ demoConfirmData [] [] 0 =
      ⟨none, [], [], [Reply.canceledAck]⟩ :=
  ⟨(claim_C4_confirm_gate SinkEnv.appendOk ⟨some "maybe", 42, "Alex Doe"⟩
      demoConfirmData [] [] 0).1 (by decide),
   (claim_C4_confirm_gate SinkEnv.appendOk ⟨some " NO ", 42, "Alex Doe"⟩
      demoConfirmData [] [] 0).2 (by decide)⟩

/-- Claim C5 (amended): append_feedback retries on a transport error or a
status of 400 or more, makes at most 3 attempts, surfaces failure exactly
when all three attempts raise, and a success always carries the status of
the attempt it returned on, necessarily below 400. -/
theorem claim_C5_retry_contract (o : Nat → AttemptOutcome) :
    (append_feedback o).2 ≤ 3 ∧
    (attemptRaises (o 1) = true → 2 ≤ (append_feedback o).2) ∧
    (attemptRaises (o 1) = true → attemptRaises (o 2) = true →
      (append_feedback o).2 = 3) ∧
    ((append_feedback o).1 = AppendResult.failure ↔
      (attemptRaises (o 1) = true ∧ attemptRaises (o 2) = true ∧
       attemptRaises (o 3) = true)) ∧
    (∀ c : Nat, (append_feedback o).1 = AppendResult.success c →
      c < 400 ∧ attemptResult (o (append_feedback o).2) = some c) := by
  cases h1 : attemptResult (o 1) with
  | some c1 =>
    have e : append_feedback o = (AppendResult.success c1, 1) := by
      simp only [append_feedback, h1]
    have hr1 : attemptRaises (o 1) = false := by simp [attemptRaises, h1]
    rw [e]
    refine ⟨by simp, ?_, ?_, ?_, ?_⟩
    · intro hr; rw [hr1] at hr; exact Bool.noConfusion hr
    · intro hr _; rw [hr1] at hr; exact Bool.noConfusion hr
    · constructor
      · intro hf; exact AppendResult.noConfusion hf
      · intro hf; rw [hr1] at hf; exact Bool.noConfusion hf.1
    · intro c hc
      have hcc : AppendResult.success c1 = AppendResult.success c := hc
      injection hcc with hc2
      subst hc2
      exact ⟨attemptResult_lt (o 1) c1 h1, h1⟩
  | none =>
    have hr1 : attemptRaises (o 1) = true := by simp [attemptRaises, h1]
    cases h2 : attemptResult (o 2) with
    | some c2 =>
      have e : append_feedback o = (AppendResult.success c2, 2) := by
        simp only [append_feedback, h1, h2]
      have hr2 : attemptRaises (o 2) = false := by simp [attemptRaises, h2]
      rw [e]
      refine ⟨by simp, fun _ => by simp, ?_, ?_, ?_⟩
      · intro _ hr; rw [hr2] at hr; exact Bool.noConfusion hr
      · constructor
        · intro hf; exact AppendResult.noConfusion hf
        · intro hf; rw [hr2] at hf; exact Bool.noConfusion hf.2.1
      · intro c hc
        have hcc : AppendResult.success c2 = AppendResult.success c := hc
        injection hcc with hc2
        subst hc2
        exact ⟨attemptResult_lt (o 2) c2 h2, h2⟩
    | none =>
      have hr2 : attemptRaises (o 2) = true := by simp [attemptRaises, h2]
      cases h3 : attemptResult (o 3) with
      | some c3 =>
        have e : append_feedback o = (AppendResult.success c3, 3) := by
          simp only [append_feedback, h1, h2, h3]
        have hr3 : attemptRaises (o 3) = false := by simp [attemptRaises, h3]
        rw [e]
        refine ⟨by simp, fun _ => by simp, fun _ _ => rfl, ?_, ?_⟩
        · constructor
          · intro hf; exact AppendResult.noConfusion hf
          · intro hf; rw [hr3] at hf; exact Bool.noConfusion hf.2.2
        · intro c hc
          have hcc : AppendResult.success c3 = AppendResult.success c := hc
          injection hcc with hc2
          subst hc2
          exact ⟨attemptResult_lt (o 3) c3 h3, h3⟩
      | none =>
        have hr3 : attemptRaises (o 3) = true := by simp [attemptRaises, h3]
        have e : append_feedback o = (AppendResult.failure, 3) := by
          simp only [append_feedback, h1, h2, h3]
        rw [e]
        refine ⟨by simp, fun _ => by simp, fun _ _ => rfl, ?_, ?_⟩
        · exact ⟨fun _ => ⟨hr1, hr2, hr3⟩, fun _ => rfl⟩
        · intro c hc; exact AppendResult.noConfusion hc

/-- Witness for C5: three consecutive transport errors exhaust the three
attempts and surface failure. -/
theorem claim_C5_witness :
    (append_feedback (fun _ => AttemptOutcome.transportError)).2 = 3 ∧
    (append_feedback (fun _ => AttemptOutcome.transportError)).1 = AppendResult.failure := by
  have h := claim_C5_retry_contract (fun _ => AttemptOutcome.transportError)
  exact ⟨h.2.2.1 (by decide) (by decide),
         h.2.2.2.1.mpr ⟨by decide, by decide, by decide⟩⟩

/-- Counterexample for C5 as stated: a first-attempt status of 300 is a
non-2xx-class outcome, yet append_feedback does not retry it; it returns
after one attempt and treats it as a success. -/
theorem claim_C5_counterexample :
    ¬ (200 ≤ 300 ∧ 300 < 300) ∧
    append_feedback (fun _ => AttemptOutcome.status 300) = (AppendResult.success 300, 1) := by
  constructor
  · decide
  · rfl

/-- Claim C6: the positional row of the sink payload has exactly nine
cells in the order vacancy title-or-id, reviewer display name,
recommendations (comment as fallback when empty), recruiter name, then
the five ratings overall, comms, timeliness, relevance, process quality. -/
theorem claim_C6_row_positional (r : FeedbackRecord) :
    (append_payload r).row =
      [Cell.str (if r.vacancy_title = "" then r.vacancy_id else r.vacancy_title),
       Cell.str r.hiring_manager_full_name,
       Cell.str (if r.recommendations = "" then r.feedback_comment else r.recommendations),
       Cell.str r.recruiter_name,
       Cell.int r.overall_rating,
       Cell.int r.comms_rating,
       Cell.int r.timeliness_rating,
       Cell.int r.relevance_rating,
       Cell.int r.process_quality_rating] ∧
    (append_payload r).row.length = 9 := by
  constructor
  · simp [append_payload, pyOrS]
  · simp [append_payload]

/-- Claim C7: at the recruiter state the sentinel default, compared
case-insensitively on the trimmed text, stores the recruiter name seeded
into the session rather than the literal input; any other text stores the
trimmed literal; both advance to the communication-rating state with one
prompt. -/
theorem claim_C7_default_sentinel (d : SessionData) (t : String) (seeded : String)
    (hs : d.recruiter_name = some seeded) :
    (pyLower (pyStrip t) = "default" →
      receive_recruiter d (Inbound.textMsg t) =
        ((FeedbackState.comms_rating, { d with recruiter_name := some seeded }),
         [Reply.commsPrompt])) ∧
    (pyLower (pyStrip t) ≠ "default" →
      receive_recruiter d (Inbound.textMsg t) =
        ((FeedbackState.comms_rating, { d with recruiter_name := some (pyStrip t) }),
         [Reply.commsPrompt])) := by
  constructor
  · intro h; simp [receive_recruiter, h, hs]
  · intro h; simp [receive_recruiter, h]

/-- Witness for C7: a padded mixed-case Default reuses the seeded
recruiter Jane. -/
theorem claim_C7_witness :
    receive_recruiter (seedSession emptySession demoVac "Alex Doe") (Inbound.textMsg " Default ") =
      ((FeedbackState.comms_rating,
        { seedSession emptySession demoVac "Alex Doe" with recruiter_name := some "Jane" }),
       [Reply.commsPrompt]) :=
  (claim_C7_default_sentinel (seedSession emptySession demoVac "Alex Doe")
    " Default " "Jane" rfl).1 (by decide)

/-- Claim C8: a record constructed at the confirm step of a session that
entered the flow at the overall-rating state and reached confirm through
the linear state sequence has all five integer ratings in [1,5]. -/
theorem claim_C8_ratings_range (sp : Bool) (d : SessionData) (msg : Message) (now : Nat)
    (h : Reaches sp FeedbackState.confirm d) :
    (1 ≤ (mkRecord d msg now).overall_rating ∧ (mkRecord d msg now).overall_rating ≤ 5) ∧
    (1 ≤ (mkRecord d msg now).comms_rating ∧ (mkRecord d msg now).comms_rating ≤ 5) ∧
    (1 ≤ (mkRecord d msg now).timeliness_rating ∧
      (mkRecord d msg now).timeliness_rating ≤ 5) ∧
    (1 ≤ (mkRecord d msg now).relevance_rating ∧
      (mkRecord d msg now).relevance_rating ≤ 5) ∧
    (1 ≤ (mkRecord d msg now).process_quality_rating ∧
      (mkRecord d msg now).process_quality_rating ≤ 5) := by
  have hinv := reaches_inv sp FeedbackState.confirm d h
  unfold SessInv stIdx ratingOk at hinv
  obtain ⟨io, ic, it, ir, ip⟩ := hinv
  obtain ⟨vo, ho, ho1, ho2⟩ := io (by decide)
  obtain ⟨vc, hc, hc1, hc2⟩ := ic (by decide)
  obtain ⟨vt, htt, ht1, ht2⟩ := it (by decide)
  obtain ⟨vr, hrr, hr1, hr2⟩ := ir (by decide)
  obtain ⟨vp, hp, hp1, hp2⟩ := ip (by decide)
  simp only [mkRecord, ho, hc, htt, hrr, hp, Option.getD_some]
  exact ⟨⟨ho1, ho2⟩, ⟨hc1, hc2⟩, ⟨ht1, ht2⟩, ⟨hr1, hr2⟩, ⟨hp1, hp2⟩⟩

/-- Witness for C8: the spec scenario run end to end — seed, ratings 5,
default, 4, 4, 5, 5, a text recommendation — reaches confirm with all
ratings in range. -/
theorem claim_C8_witness :
    (1 ≤ (mkRecord demoConfirmData demoMsg 0).overall_rating ∧
      (mkRecord demoConfirmData demoMsg 0).overall_rating ≤ 5) ∧
    (1 ≤ (mkRecord demoConfirmData demoMsg 0).comms_rating ∧
      (mkRecord demoConfirmData demoMsg 0).comms_rating ≤ 5) ∧
    (1 ≤ (mkRecord demoConfirmData demoMsg 0).timeliness_rating ∧
      (mkRecord demoConfirmData demoMsg 0).timeliness_rating ≤ 5) ∧
    (1 ≤ (mkRecord demoConfirmData demoMsg 0).relevance_rating ∧
      (mkRecord demoConfirmData demoMsg 0).relevance_rating ≤ 5) ∧
    (1 ≤ (mkRecord demoConfirmData demoMsg 0).process_quality_rating ∧
      (mkRecord demoConfirmData demoMsg 0).process_quality_rating ≤ 5) := by
  have h0 : Reaches true FeedbackState.overall_rating
      (seedSession emptySession demoVac "Alex Doe") :=
    Reaches.seed emptySession demoVac "Alex Doe"
  have h1 := Reaches.stepOverall _ (Inbound.textMsg "5") _ _ _ h0 rfl
  have h2 := Reaches.stepRecruiter _ (Inbound.textMsg "default") _ _ _ h1 rfl
  have h3 := Reaches.stepComms _ (Inbound.textMsg "4") _ _ _ h2 rfl
  have h4 := Reaches.stepTime _ (Inbound.textMsg "4") _ _ _ h3 rfl
  have h5 := Reaches.stepRelevance _ (Inbound.textMsg "5") _ _ _ h4 rfl
  have h6 := Reaches.stepProcess _ (Inbound.textMsg "5") _ _ _ h5 rfl
  have h7 := Reaches.stepRecs _ (Inbound.textMsg "Great process") _ _ _ h6 rfl
  exact claim_C8_ratings_range true demoConfirmData demoMsg 0 h7

/-- Claim C9 exhibit: the dedup check-then-mark is two separate critical
sections, so two concurrent deliveries of the same event id can both
observe it unseen — under the schedule check A, check B, mark A, process
A, mark B, process B both handlers report ok and the fan-out runs twice,
against the claimed atomicity. -/
theorem claim_C9_race_double_fanout :
    raceOutcome.1 = HPC.done WebhookResp.ok ∧
    raceOutcome.2.1 = HPC.done WebhookResp.ok ∧
    raceOutcome.2.2.fanout_log.length = 2 ∧
    raceOutcome.2.2.seen = ["e1", "e1"] := by
  decide

/-- Claim C10: fan-out prompts exactly the reviewers that are unregistered
or registered with status active; deliveries that fail are logged and
drop out of the delivered set only. -/
theorem claim_C10_fanout_eligibility (store : Int → Option User) (deliver : Int → Bool)
    (ids : List Int) :
    (send_feedback_request store deliver ids).attempted =
      ids.filter (eligibleReviewer store) ∧
    (send_feedback_request store deliver ids).delivered =
      (ids.filter (eligibleReviewer store)).filter deliver := by
  induction ids with
  | nil => exact ⟨rfl, rfl⟩
  | cons m rest ih =>
    simp only [send_feedback_request, List.filter_cons]
    cases hm : store m with
    | none =>
      simp only [eligibleReviewer, hm, if_true]
      cases hd : deliver m <;>
        simp [send_feedback_request, hm, hd, ih.1, ih.2, List.filter_cons]
    | some u =>
      by_cases hs : u.status = "active"
      · simp only [eligibleReviewer, hm, hs]
        cases hd : deliver m <;>
          simp [send_feedback_request, hm, hs, hd, ih.1, ih.2, List.filter_cons]
      · simp only [eligibleReviewer, hm, hs]
        simp [send_feedback_request, hm, hs, ih.1, ih.2]

end Korus
